/-
Verification of the FeedVox AI desktop backend supervisor (Electron main
process, `main.js`).

The development shallowly embeds the supervisor's health prober, process
lifecycle manager, status synchronizer and single-instance guard:

* `checkBackendWithHttp` embeds the native-http prober (main.js lines
  266-320): it walks the candidate host list `['127.0.0.1', 'localhost']`,
  resolving `true` on the first HTTP 200 and advancing past transport
  errors, timeouts and non-200 responses.  Network behaviour is modelled
  as an assignment of one terminal outcome (a response with some status
  code, a transport error, or a timeout) to each host.
* `SupState` is the mutable module state of the main process (the shared
  `backendProcess` handle, the set of live spawned worker OS processes,
  which of them are ready to answer `/health`, the pending 10-second
  force-kill timers of `stopBackend`, and a clock).  `startBackend`,
  `stopBackend`, `restartBackend` and `killExistingBackends` embed the
  source functions step for step, each returning the new state plus the
  list of observable events (signals sent, spawns, probes, dialogs).
* `segStep`/`runSched` replay the Node event loop's interleaving of two
  concurrent `startBackend` invocations at their `await` boundaries.
* `tickStart`/`probeBusy`/`probesInFlight` embed the 10-second
  `setInterval` status tick (lines 36-39) whose handler `updateTrayMenu`
  unconditionally launches a probe.
* `requestSingleInstanceLock`/`bootInstance`/`secondInstanceHandler`
  embed the single-instance guard (lines 919-934).
-/
import Mathlib

/-! ## Health prober (checkBackendWithHttp, main.js 266-320) -/

/-- Candidate hosts tried by the prober, in source order:
`const hostnames = ['127.0.0.1', 'localhost']`. -/
inductive Host
  | ip127
  | localhost
deriving DecidableEq

/-- Terminal outcome of one HTTP attempt against one host, matching the
three events the source handles: a response carrying a status code
(`res.statusCode`), a transport-level error (`req.on('error')`), or a
timeout (`req.on('timeout')`, after which the request is destroyed). -/
inductive Outcome
  | resp (code : Nat)
  | netError
  | timedOut
deriving DecidableEq

/-- Host list of `checkBackendWithHttp`: `['127.0.0.1', 'localhost']`. -/
def hostnames : List Host := [Host.ip127, Host.localhost]

/-- One `tryConnection`/`tryNextHost` pass over the remaining hosts:
status 200 resolves `true`; a non-200 response, error or timeout advances
to the next host; an exhausted list resolves `false`. -/
def tryHosts (net : Host → Outcome) : List Host → Bool
  | [] => false
  | h :: rest =>
    match net h with
    | Outcome.resp code => if code = 200 then true else tryHosts net rest
    | Outcome.netError => tryHosts net rest
    | Outcome.timedOut => tryHosts net rest

/-- Embeds `checkBackendWithHttp` (main.js 266-320): probe the candidate hosts
with the native `http` transport.  Total by construction: every
assignment of attempt outcomes produces a boolean. -/
def checkBackendWithHttp (net : Host → Outcome) : Bool :=
  tryHosts net hostnames

/-- Axios `GET /health` with `validateStatus: status === 200`: resolves
`true` exactly on a status-200 response; any error, timeout or non-200
response is caught and collapses to `false`. -/
def axiosGetHealth (fallback : Host → Outcome) (h : Host) : Bool :=
  match fallback h with
  | Outcome.resp code => decide (code = 200)
  | Outcome.netError => false
  | Outcome.timedOut => false

/-- Embeds `checkBackendStatus` (main.js 575-596) as a function of the ambient
primary (native http) and fallback (axios) transports: the source calls
only `checkBackendWithHttp` and never touches the axios fallback. -/
def checkBackendStatus (primary : Host → Outcome)
    (fallback : Host → Outcome) : Bool :=
  checkBackendWithHttp primary

/-- Liveness determination of `updateTrayMenu` (main.js 322-360): first
the native-http prober over both hosts; if that fails, one axios request
against `BACKEND_URL = http://localhost:7717` only. -/
def updateTrayMenu (primary : Host → Outcome)
    (fallback : Host → Outcome) : Bool :=
  let r := checkBackendWithHttp primary
  if r then r else axiosGetHealth fallback Host.localhost

/-- Primary transport failing on every host (total local-network outage). -/
def primaryDead : Host → Outcome := fun _ => Outcome.netError

/-- Fallback transport that would answer 200 on the numeric loopback
host but fails on `localhost`. -/
def fallbackOn127 : Host → Outcome := fun h =>
  match h with
  | Host.ip127 => Outcome.resp 200
  | Host.localhost => Outcome.netError

/-! ## Supervisor state model (main.js module state and lifecycle ops) -/

/-- Observable events emitted by the lifecycle operations. -/
inductive Ev
  | cleanupAttempt (effective : Bool)
  | sigterm (p : Nat)
  | sigkill (p : Nat)
  | spawned (p : Nat)
  | settle
  | healthProbe (result : Bool)
  | startupErrorShown
  | timerSet (fireAt : Nat)
deriving DecidableEq

/-- Mutable module state of the Electron main process: `backendProcess`
(the shared handle), the set of live spawned worker OS processes, the
subset of them that have finished booting and answer `/health`, the
pending `stopBackend` force-kill timers (fire times, seconds), a clock,
a fresh-pid counter and the number of OS spawn attempts so far. -/
structure SupState where
  now : Nat
  handle : Option Nat
  live : List Nat
  ready : List Nat
  timers : List Nat
  nextPid : Nat
  spawnCount : Nat
deriving DecidableEq

/-- Environment of a run: whether the best-effort OS cleanup commands of
`killExistingBackends` (netstat/taskkill, pkill/lsof — all errors
swallowed) actually kill the port's workers, whether the worker honours
SIGTERM, whether the resolved python executable and `main.py` exist, and
whether `mainWindow` exists (the error dialog is shown only then). -/
structure Env where
  cleanupWorks : Bool
  sigtermKills : Bool
  pythonExists : Bool
  mainPyExists : Bool
  windowPresent : Bool
deriving DecidableEq

/-- Deliver the pending force-kill timers of `stopBackend` that have
come due.  Each callback is `if (backendProcess) backendProcess.kill('SIGKILL')`:
it reads the shared handle at fire time, kills whatever process the
handle refers to at that moment, and does nothing when the handle is
null.  The killed process's `close` handler nulls the handle. -/
def fireTimers : List Nat → SupState → SupState × List Ev
  | [], s => (s, [])
  | _ :: ts, s =>
    match s.handle with
    | some q =>
      let s1 : SupState :=
        { s with live := s.live.erase q, ready := s.ready.erase q, handle := none }
      let r := fireTimers ts s1
      (r.1, Ev.sigkill q :: r.2)
    | none => fireTimers ts s

/-- Let `d` seconds of event-loop time pass: the clock advances and all
force-kill timers that come due in the window fire. -/
def advance (d : Nat) (s : SupState) : SupState × List Ev :=
  let n2 := s.now + d
  fireTimers (s.timers.filter (fun t => decide (t ≤ n2)))
    { s with now := n2, timers := s.timers.filter (fun t => decide (n2 < t)) }

/-- Worker-side probe environment: a booted (ready) worker answers the
`/health` request with 200 on both loopback names; with no ready worker
every attempt is a transport error. -/
def probeOutcome (s : SupState) : Host → Outcome :=
  fun _ => if s.ready.isEmpty then Outcome.netError else Outcome.resp 200

/-- Embeds `checkBackendStatus` as invoked by the lifecycle manager: the
native-http prober run against the current worker state (main.js
575-596; the tray refresh it also fires mutates no lifecycle state). -/
def checkBackendStatusSup (s : SupState) : Bool :=
  checkBackendWithHttp (probeOutcome s)

/-- Embeds `killExistingBackends` (main.js 227-263): best-effort force-kill of
every worker bound to port 7717 (and any `python main.py`), errors
ignored, followed by a 2-second wait for the processes to die.  When the
commands take effect every live worker dies; the spawned workers' `close`
handlers null the shared handle during the wait. -/
def killExistingBackends (env : Env) (s : SupState) : SupState × List Ev :=
  let s1 : SupState :=
    if env.cleanupWorks then { s with live := [], ready := [], handle := none } else s
  let r := advance 2 s1
  (r.1, Ev.cleanupAttempt env.cleanupWorks :: r.2)

/-- Embeds `stopBackend` (main.js 774-788): if the handle is null, a no-op;
otherwise send SIGTERM to the handle's process, schedule the 10-second
force-kill timer, and null the shared handle synchronously before
returning — the function never waits for OS exit confirmation and never
clears the timer. -/
def stopBackend (env : Env) (s : SupState) : SupState × List Ev :=
  match s.handle with
  | none => (s, [])
  | some p =>
    ({ s with
        handle := none,
        live := if env.sigtermKills then s.live.erase p else s.live,
        ready := if env.sigtermKills then s.ready.erase p else s.ready,
        timers := s.timers ++ [s.now + 10] },
     [Ev.sigterm p, Ev.timerSet (s.now + 10)])

/-- Fixed 3-second settle delay of `restartBackend` (main.js 799). -/
def settleDelay (s : SupState) : SupState × List Ev :=
  let r := advance 3 s
  (r.1, Ev.settle :: r.2)

/-- Embeds `spawn(pythonExecutable, [mainPyPath], ...)` (main.js 669-675): a
fresh OS process is created, the shared handle is set to it, and the
spawn-attempt counter increases. -/
def spawnWorker (s : SupState) : SupState × List Ev :=
  ({ s with
      live := s.live ++ [s.nextPid],
      handle := some s.nextPid,
      nextPid := s.nextPid + 1,
      spawnCount := s.spawnCount + 1 },
   [Ev.spawned s.nextPid])

/-- Embeds `startBackend` (main.js 598-675): first `await killExistingBackends()`,
then the `if (backendProcess) return` guard, then the
`checkBackendStatus` liveness re-check (skip spawn when a worker already
answers), then the executable/entry-script existence checks (error
dialog shown when `mainWindow` exists, no spawn, no retry), and finally
the spawn.  The readiness loop that follows the spawn only refreshes the
tray and spawns nothing. -/
def startBackend (env : Env) (s : SupState) : SupState × List Ev :=
  let r1 := killExistingBackends env s
  if r1.1.handle.isSome then r1
  else
    let hc := checkBackendStatusSup r1.1
    let t2 := r1.2 ++ [Ev.healthProbe hc]
    if hc then (r1.1, t2)
    else if env.pythonExists && env.mainPyExists then
      let r3 := spawnWorker r1.1
      (r3.1, t2 ++ r3.2)
    else
      (r1.1, t2 ++ if env.windowPresent then [Ev.startupErrorShown] else [])

/-- Embeds `restartBackend` (main.js 790-803): `await killExistingBackends()`,
then `stopBackend()`, then the fixed 3-second settle delay, then
`await startBackend()`. -/
def restartBackend (env : Env) (s : SupState) : SupState × List Ev :=
  let r1 := killExistingBackends env s
  let r2 := stopBackend env r1.1
  let r3 := settleDelay r2.1
  let r4 := startBackend env r3.1
  (r4.1, r1.2 ++ r2.2 ++ r3.2 ++ r4.2)

/-- Sequential commands issued to the supervisor: lifecycle calls run to
completion, plus two environment steps — waiting (which lets pending
force-kill timers fire) and workers finishing their boot (becoming able
to answer `/health`). -/
inductive Op
  | start
  | stop
  | restart
  | wait (d : Nat)
  | markReady

/-- Run one command. -/
def runOp (env : Env) : Op → SupState → SupState × List Ev
  | Op.start, s => startBackend env s
  | Op.stop, s => stopBackend env s
  | Op.restart, s => restartBackend env s
  | Op.wait d, s => advance d s
  | Op.markReady, s => ({ s with ready := s.live }, [])

/-- Run a sequence of commands, accumulating the emitted events. -/
def runOps (env : Env) : List Op → SupState → SupState × List Ev
  | [], s => (s, [])
  | o :: os, s =>
    let r1 := runOp env o s
    let r2 := runOps env os r1.1
    (r2.1, r1.2 ++ r2.2)

/-- Boot state: no worker, no handle, no pending timers. -/
def init0 : SupState :=
  { now := 0, handle := none, live := [], ready := [], timers := [],
    nextPid := 1, spawnCount := 0 }

/-- Healthy environment: cleanup commands work, the worker honours
SIGTERM, both paths exist, the window is up. -/
def envGood : Env :=
  { cleanupWorks := true, sigtermKills := true, pythonExists := true,
    mainPyExists := true, windowPresent := true }

/-- Degraded environment: the best-effort cleanup commands silently fail
and the worker ignores SIGTERM (a hung worker); paths exist. -/
def envHung : Env :=
  { cleanupWorks := false, sigtermKills := false, pythonExists := true,
    mainPyExists := true, windowPresent := true }

/-- A previously spawned worker (pid 1) that is live but hung: it no
longer answers `/health` and ignores SIGTERM. -/
def initHung : SupState :=
  { now := 0, handle := some 1, live := [1], ready := [], timers := [],
    nextPid := 2, spawnCount := 1 }

/-- A previously spawned worker (pid 1) that is live and answering
`/health`. -/
def initRunning : SupState :=
  { now := 0, handle := some 1, live := [1], ready := [1], timers := [],
    nextPid := 2, spawnCount := 1 }

/-! ## Event-loop interleaving of two startBackend calls

`startBackend` is an async function with two suspension points: the
`await killExistingBackends()` (whose tail is a 2-second sleep) and the
`await checkBackendStatus()` HTTP probe.  A task therefore runs as three
atomic segments; between segments the event loop may run another task's
segment. -/

/-- Progress of one `startBackend` invocation through its atomic
segments. -/
inductive Phase
  | ph1
  | ph2
  | ph3
  | phDone

/-- Run the next atomic segment of one `startBackend` task:
`ph1` performs the cleanup and suspends; `ph2` resumes after the cleanup
wait, runs the `if (backendProcess) return` guard and issues the health
probe; `ph3` resumes with the probe result (sampled against the state at
resolution time) and runs the path checks and the spawn. -/
def segStep (env : Env) (s : SupState) : Phase → SupState × Phase
  | Phase.ph1 => ((killExistingBackends env s).1, Phase.ph2)
  | Phase.ph2 => if s.handle.isSome then (s, Phase.phDone) else (s, Phase.ph3)
  | Phase.ph3 =>
    if checkBackendStatusSup s then (s, Phase.phDone)
    else if env.pythonExists && env.mainPyExists then
      ((spawnWorker s).1, Phase.phDone)
    else (s, Phase.phDone)
  | Phase.phDone => (s, Phase.phDone)

/-- Shared state plus the progress of two concurrent `startBackend`
tasks. -/
structure Conc where
  sys : SupState
  taskA : Phase
  taskB : Phase

/-- Scheduler step: run the next segment of task A (`true`) or
task B (`false`). -/
def schedStep (env : Env) (c : Conc) (runA : Bool) : Conc :=
  if runA then
    let r := segStep env c.sys c.taskA
    { c with sys := r.1, taskA := r.2 }
  else
    let r := segStep env c.sys c.taskB
    { c with sys := r.1, taskB := r.2 }

/-- Run a schedule (a list of scheduler choices). -/
def runSched (env : Env) : List Bool → Conc → Conc
  | [], c => c
  | b :: bs, c => runSched env bs (schedStep env c b)

/-- Two `startBackend` invocations both pending at boot. -/
def concInit : Conc :=
  { sys := init0, taskA := Phase.ph1, taskB := Phase.ph1 }

/-! ## Periodic status synchronizer (main.js 36-39 and 322-360)

`setInterval(() => { updateTrayMenu().catch(console.error) }, 10000)`:
the handler contains no in-flight flag and no skip branch, so every tick
launches a probe. -/

/-- Polling interval of the periodic status tick, seconds. -/
def statusIntervalSeconds : Nat := 10

/-- Idle timeout armed per HTTP attempt (`req.setTimeout(3000)`),
seconds. -/
def perAttemptTimeoutSeconds : Nat := 3

/-- Duration budget of one tray probe when every attempt hits its idle
timeout: one capped attempt per candidate host on the primary transport
plus one capped axios fallback attempt. -/
def probeWorstCaseSeconds : Nat :=
  perAttemptTimeoutSeconds * hostnames.length + perAttemptTimeoutSeconds

/-- Start time of the n-th periodic tick (the first fires one interval
after `whenReady`). -/
def tickStart (n : Nat) : Nat := statusIntervalSeconds * (n + 1)

/-- The interval handler launches a probe on every tick: the source has
no single-flight guard, so no tick is ever skipped. -/
def tickLaunchesProbe (_n : Nat) : Bool := true

/-- Whether the probe launched by tick `n` is still unresolved at time
`t`, given the duration of each tick's probe. -/
def probeBusy (dur : Nat → Nat) (n t : Nat) : Bool :=
  decide (tickStart n ≤ t) && decide (t < tickStart n + dur n)

/-- Number of periodic-tick probes in flight at time `t` among the first
`ticks` ticks. -/
def probesInFlight (dur : Nat → Nat) (ticks t : Nat) : Nat :=
  ((Finset.range ticks).filter (fun n => probeBusy dur n t = true)).card

/-! ## Single-instance guard (main.js 919-934) -/

/-- Window state of the primary instance's `mainWindow`. -/
structure WinState where
  minimized : Bool
  visible : Bool
  focused : Bool
  restored : Bool
deriving DecidableEq

/-- The `second-instance` handler of the primary instance (main.js
925-933): restore if minimized, show if hidden, focus. -/
def secondInstanceHandler (w : WinState) : WinState :=
  let w1 := if w.minimized then { w with minimized := false, restored := true } else w
  let w2 := if w1.visible then w1 else { w1 with visible := true }
  { w2 with focused := true }

/-- The handler is guarded by `if (mainWindow)`: with no window it does
nothing. -/
def onSecondInstance : Option WinState → Option WinState
  | none => none
  | some w => some (secondInstanceHandler w)

/-- Electron's `app.requestSingleInstanceLock()`: acquisition succeeds
exactly when no other instance currently holds the OS-level lock (the
primitive self-releases on process death); a failed acquisition forwards
the activation to the holder as a `second-instance` event. -/
def requestSingleInstanceLock (otherInstanceRunning : Bool) : Bool :=
  !otherInstanceRunning

/-- Outcome of one application instance's boot. -/
structure InstanceBoot where
  gotTheLock : Bool
  quitCalled : Bool
  workerSpawns : Nat
deriving DecidableEq

/-- Module-level boot of main.js (lines 919-924): if the lock is not
acquired, `app.quit()` runs before the app becomes ready, so the
`whenReady` chain — and with it any `startBackend` spawn — never runs;
otherwise boot proceeds and `whenReady` performs whatever spawns the
lifecycle manager decides (`readySpawns`). -/
def bootInstance (otherInstanceRunning : Bool) (readySpawns : Nat) : InstanceBoot :=
  if requestSingleInstanceLock otherInstanceRunning then
    { gotTheLock := true, quitCalled := false, workerSpawns := readySpawns }
  else
    { gotTheLock := false, quitCalled := true, workerSpawns := 0 }

/-- Environment whose resolved python executable is absent. -/
def envNoPy : Env :=
  { cleanupWorks := true, sigtermKills := true, pythonExists := false,
    mainPyExists := true, windowPresent := true }

/-! ## Theorems about the prober -/

theorem tryHosts_true_iff (net : Host → Outcome) (l : List Host) :
    tryHosts net l = true ↔ ∃ h ∈ l, net h = Outcome.resp 200 := by
  induction l with
  | nil => simp [tryHosts]
  | cons h rest ih =>
    cases hn : net h with
    | resp code =>
      by_cases hc : code = 200
      · subst hc
        simp [tryHosts, hn]
      · simp [tryHosts, hn, hc, ih, Outcome.resp.injEq]
    | netError => simp [tryHosts, hn, ih]
    | timedOut => simp [tryHosts, hn, ih]

/-- C2: for every assignment of terminal outcomes to the candidate hosts
(arbitrary network behaviour at the level of the events the source
handles), `checkBackendWithHttp` resolves with a boolean — it is a total
function, so it never rejects or hangs — and it resolves `true` if and
only if some candidate host answered the `/health` request with HTTP
status exactly 200; every transport error, timeout or non-200 response
collapses into `false`. -/
theorem checkBackendWithHttp_ok (net : Host → Outcome) :
    checkBackendWithHttp net = true ↔ ∃ h ∈ hostnames, net h = Outcome.resp 200 :=
  tryHosts_true_iff net hostnames

/-- C6 counterexample: with the primary transport failing on every
candidate host and a fallback transport that would answer 200 on the
candidate host `127.0.0.1`, both liveness determinations declare the
worker unreachable: `checkBackendStatus` makes no fallback attempt at
all, and `updateTrayMenu` retries only `localhost` with the fallback —
the candidate-host list is not retried in full, contradicting the claim
that every determination retries the entire list on the fallback
transport before declaring the worker unreachable. -/
theorem fallback_skips_hostList :
    checkBackendStatus primaryDead fallbackOn127 = false ∧
    updateTrayMenu primaryDead fallbackOn127 = false ∧
    (∃ h ∈ hostnames, fallbackOn127 h = Outcome.resp 200) := by
  refine ⟨rfl, rfl, ?_⟩
  exact ⟨Host.ip127, by decide, rfl⟩

/-- C6 amended: only the tray-menu refresh (`updateTrayMenu`) retries
with the fallback axios transport, and it retries only the single host
`localhost`, not the entire candidate list; `checkBackendStatus` performs
no fallback attempt and equals the primary-transport probe alone. -/
theorem fallback_only_tray_localhost (primary fallback : Host → Outcome) :
    checkBackendStatus primary fallback = checkBackendWithHttp primary ∧
    updateTrayMenu primary fallback =
      (checkBackendWithHttp primary || axiosGetHealth fallback Host.localhost) := by
  refine ⟨rfl, ?_⟩
  cases h : checkBackendWithHttp primary <;> simp [updateTrayMenu, h]

/-! ## Helper lemmas about the lifecycle operations -/

theorem fireTimers_of_none (ts : List Nat) (s : SupState) (h : s.handle = none) :
    fireTimers ts s = (s, []) := by
  induction ts with
  | nil => rfl
  | cons t ts ih => simp [fireTimers, h, ih]

theorem advance_of_none (d : Nat) (s : SupState) (h : s.handle = none) :
    advance d s =
      ({ s with
          now := s.now + d,
          timers := s.timers.filter (fun t => decide (s.now + d < t)) }, []) := by
  unfold advance
  exact fireTimers_of_none _ _ h

theorem fireTimers_live_le (ts : List Nat) (s : SupState) :
    ((fireTimers ts s).1).live.length ≤ s.live.length := by
  induction ts generalizing s with
  | nil => simp [fireTimers]
  | cons t ts ih =>
    cases h : s.handle with
    | none => simpa [fireTimers, h] using ih s
    | some q =>
      simp only [fireTimers, h]
      exact le_trans
        (ih { s with live := s.live.erase q, ready := s.ready.erase q, handle := none })
        (List.erase_sublist q s.live).length_le

theorem advance_live_le (d : Nat) (s : SupState) :
    ((advance d s).1).live.length ≤ s.live.length := by
  unfold advance
  exact fireTimers_live_le _ _

theorem fireTimers_nextPid (ts : List Nat) (s : SupState) :
    ((fireTimers ts s).1).nextPid = s.nextPid := by
  induction ts generalizing s with
  | nil => rfl
  | cons t ts ih =>
    cases h : s.handle with
    | none => simpa [fireTimers, h] using ih s
    | some q =>
      have h2 := ih { s with live := s.live.erase q, ready := s.ready.erase q, handle := none }
      simpa [fireTimers, h] using h2

theorem advance_nextPid (d : Nat) (s : SupState) :
    ((advance d s).1).nextPid = s.nextPid := by
  unfold advance
  exact fireTimers_nextPid _ _

theorem killExistingBackends_nextPid (env : Env) (s : SupState) :
    ((killExistingBackends env s).1).nextPid = s.nextPid := by
  unfold killExistingBackends
  cases h : env.cleanupWorks <;> simp [h, advance_nextPid]

theorem stopBackend_nextPid (env : Env) (s : SupState) :
    ((stopBackend env s).1).nextPid = s.nextPid := by
  cases h : s.handle <;> simp [stopBackend, h]

theorem settleDelay_nextPid (s : SupState) :
    ((settleDelay s).1).nextPid = s.nextPid := by
  unfold settleDelay
  exact advance_nextPid _ _

theorem checkBackendStatusSup_of_ready_nil (s : SupState) (h : s.ready = []) :
    checkBackendStatusSup s = false := by
  simp [checkBackendStatusSup, checkBackendWithHttp, probeOutcome, hostnames,
    tryHosts, h]

theorem killExistingBackends_fst (env : Env) (s : SupState)
    (h : env.cleanupWorks = true) :
    (killExistingBackends env s).1 =
      { s with
          live := [], ready := [], handle := none, now := s.now + 2,
          timers := s.timers.filter (fun t => decide (s.now + 2 < t)) } := by
  unfold killExistingBackends
  rw [h]
  simp [advance_of_none]

theorem startBackend_live_cases (env : Env) (s : SupState)
    (h : env.cleanupWorks = true) :
    ((startBackend env s).1).live = [] ∨
      ((startBackend env s).1).live = [s.nextPid] := by
  simp only [startBackend, killExistingBackends_fst env s h]
  cases hpm : env.pythonExists && env.mainPyExists <;>
    simp [checkBackendStatusSup_of_ready_nil, spawnWorker, hpm]

theorem startBackend_live_le (env : Env) (s : SupState)
    (h : env.cleanupWorks = true) :
    ((startBackend env s).1).live.length ≤ 1 := by
  rcases startBackend_live_cases env s h with hc | hc <;> simp [hc]

theorem stopBackend_live_le (env : Env) (s : SupState) :
    ((stopBackend env s).1).live.length ≤ s.live.length := by
  cases h : s.handle with
  | none => simp [stopBackend, h]
  | some p =>
    cases hk : env.sigtermKills <;> simp [stopBackend, h, hk]
    exact (List.erase_sublist p s.live).length_le

theorem restartBackend_live_le (env : Env) (s : SupState)
    (h : env.cleanupWorks = true) :
    ((restartBackend env s).1).live.length ≤ 1 :=
  startBackend_live_le env
    (settleDelay (stopBackend env (killExistingBackends env s).1).1).1 h

theorem killExistingBackends_fst_stopped (env : Env) (s : SupState)
    (h1 : s.handle = none) (h2 : s.live = []) (h3 : s.ready = []) :
    (killExistingBackends env s).1 =
      { s with
          now := s.now + 2,
          timers := s.timers.filter (fun t => decide (s.now + 2 < t)) } := by
  have hs : ({ s with live := [], ready := [], handle := none } : SupState) = s := by
    cases s
    simp_all
  unfold killExistingBackends
  cases hcw : env.cleanupWorks <;> simp [hs, advance_of_none, h1]

theorem killExistingBackends_snd_stopped (env : Env) (s : SupState)
    (h1 : s.handle = none) :
    (killExistingBackends env s).2 = [Ev.cleanupAttempt env.cleanupWorks] := by
  unfold killExistingBackends
  cases hcw : env.cleanupWorks <;> simp [advance_of_none, h1]

/-! ## Claim theorems: lifecycle -/

/-- C1 counterexample: two `startBackend` invocations interleaved at
their `await` boundaries (schedule A-cleanup, B-cleanup, A-guard,
B-guard, A-spawn, B-spawn) both pass the `if (backendProcess)` guard and
the liveness re-check before either has spawned, so both spawn: two
worker processes (pids 1 and 2) are concurrently live, refuting the
claim that the number of live spawned workers never exceeds 1 for every
interleaving of lifecycle calls. -/
theorem startBackend_race_two_live :
    ((runSched envGood [true, false, true, false, true, false] concInit).sys).live
        = [1, 2] ∧
    ((runSched envGood [true, false, true, false, true, false] concInit).sys).spawnCount
        = 2 := by
  decide

/-- C1 amended: for sequences of non-overlapping lifecycle commands
(each `start`/`stop`/`restart` runs to completion before the next
begins) in an environment where the best-effort pre-start cleanup
actually kills the port's workers, at most one worker process is live
after every prefix of the run; the at-most-one-live-worker invariant
fails only for overlapping `start()` calls (see the race above) or when
the cleanup commands silently fail. -/
theorem atMostOneLiveWorker (env : Env) (ops : List Op)
    (h : env.cleanupWorks = true) :
    ((runOps env ops init0).1).live.length ≤ 1 := by
  have key : ∀ (l : List Op) (s : SupState), s.live.length ≤ 1 →
      ((runOps env l s).1).live.length ≤ 1 := by
    intro l
    induction l with
    | nil => intro s hs; simpa [runOps] using hs
    | cons o os ih =>
      intro s hs
      have hstep : ((runOp env o s).1).live.length ≤ 1 := by
        cases o with
        | start => exact startBackend_live_le env s h
        | stop => exact le_trans (stopBackend_live_le env s) hs
        | restart => exact restartBackend_live_le env s h
        | wait d => exact le_trans (advance_live_le d s) hs
        | markReady => simpa [runOp] using hs
      simpa [runOps] using ih (runOp env o s).1 hstep
  exact key ops init0 (by decide)

/-- C1 witness: a concrete sequential run stays at no more than one
live worker. -/
theorem atMostOneLiveWorker_witness :
    ((runOps envGood [Op.start, Op.markReady, Op.restart, Op.stop, Op.wait 10]
        init0).1).live.length ≤ 1 :=
  atMostOneLiveWorker envGood
    [Op.start, Op.markReady, Op.restart, Op.stop, Op.wait 10] rfl

/-- C3: the claim is what the source comments intend ("Force kill after
10 seconds"), but the code nulls `backendProcess` synchronously inside
`stopBackend` before the 10-second timer fires, and the timer callback
re-reads that shared handle; on a worker (pid 1) that ignores SIGTERM
the timer therefore fires without sending any SIGKILL to pid 1, which
survives — no forceful kill is ever issued against the process the stop
terminated, and no `clearTimeout` exists to cancel the timer on early
exit. -/
theorem stopBackend_never_forceKills :
    Ev.sigterm 1 ∈ (runOps envHung [Op.stop, Op.wait 10] initHung).2 ∧
    Ev.timerSet 10 ∈ (runOps envHung [Op.stop, Op.wait 10] initHung).2 ∧
    Ev.sigkill 1 ∉ (runOps envHung [Op.stop, Op.wait 10] initHung).2 ∧
    1 ∈ ((runOps envHung [Op.stop, Op.wait 10] initHung).1).live ∧
    ((runOps envHung [Op.stop, Op.wait 10] initHung).1).timers = [] := by
  decide

/-- C4 counterexample: `restartBackend` on a hung worker (pid 1: live,
ignoring SIGTERM, not answering `/health`) with the best-effort cleanup
commands silently failing spawns the new worker (pid 2) while pid 1 is
still live, with no force-kill ever issued against pid 1 and no OS exit
confirmed — the restart's settle delay is a fixed 3 seconds and the
stop's 10-second force-kill timer reads the already-nulled handle. -/
theorem restart_spawns_while_prior_alive :
    1 ∈ ((restartBackend envHung initHung).1).live ∧
    Ev.spawned 2 ∈ (restartBackend envHung initHung).2 ∧
    Ev.sigkill 1 ∉ (restartBackend envHung initHung).2 ∧
    ((restartBackend envHung initHung).1).live = [1, 2] := by
  decide

/-- C4 amended: `restartBackend` always executes exactly the sequence
cleanup-of-orphans, then stop, then the fixed settle delay, then start
(its event trace is the concatenation of the four phases' traces); it
does not wait for the prior worker's exit to be confirmed, and the new
spawn is guaranteed to outlive no prior worker only when the best-effort
cleanup takes effect — in that case every previously live worker is dead
before (and after) the new spawn. -/
theorem restartBackend_order (env : Env) (s : SupState)
    (h : env.cleanupWorks = true) (hw : ∀ q ∈ s.live, q < s.nextPid) :
    (restartBackend env s).2 =
      (killExistingBackends env s).2 ++
      (stopBackend env (killExistingBackends env s).1).2 ++
      (settleDelay (stopBackend env (killExistingBackends env s).1).1).2 ++
      (startBackend env
        (settleDelay (stopBackend env (killExistingBackends env s).1).1).1).2 ∧
    ∀ p ∈ s.live, p ∉ ((restartBackend env s).1).live := by
  constructor
  · rfl
  · intro p hp
    have hn : (settleDelay (stopBackend env
        (killExistingBackends env s).1).1).1.nextPid = s.nextPid := by
      rw [settleDelay_nextPid, stopBackend_nextPid, killExistingBackends_nextPid]
    have hc := startBackend_live_cases env
      (settleDelay (stopBackend env (killExistingBackends env s).1).1).1 h
    rw [hn] at hc
    have hlt := hw p hp
    have hr : (restartBackend env s).1 =
        (startBackend env
          (settleDelay (stopBackend env (killExistingBackends env s).1).1).1).1 := rfl
    rw [hr]
    rcases hc with hc | hc <;> rw [hc] <;> simp
    omega

/-- C4 witness: restarting over a healthy running worker (pid 1) in the
healthy environment leaves pid 1 dead. -/
theorem restartBackend_order_witness :
    1 ∉ ((restartBackend envGood initRunning).1).live :=
  (restartBackend_order envGood initRunning rfl (by decide)).2 1 (by decide)

/-- C5 counterexample: two sequential `startBackend` calls with no
intervening stop produce two OS spawn attempts, and the first worker
(pid 1) is killed rather than left undisturbed — the second call's
unconditional `killExistingBackends` kills it, the close handler nulls
the handle during the cleanup's 2-second wait, the liveness re-check
then fails, and a fresh process is spawned. -/
theorem startBackend_twice_two_spawns :
    ((runOps envGood [Op.start, Op.start] init0).1).spawnCount = 2 ∧
    1 ∉ ((runOps envGood [Op.start, Op.start] init0).1).live ∧
    ((runOps envGood [Op.start, Op.start] init0).1).live = [2] := by
  decide

/-- C5 amended: calling `start()` twice in a row without an intervening
`stop()` results in two spawn attempts whenever the pre-start cleanup
commands take effect and both worker paths exist: the second call's
cleanup kills the first worker before the idempotence guard and the
liveness re-check run, so both checks pass and a replacement is spawned;
`start()` is a no-op only when the handle survives to the guard or a
worker survives cleanup and still answers health checks. -/
theorem startBackend_not_idempotent (env : Env)
    (h1 : env.cleanupWorks = true) (h2 : env.pythonExists = true)
    (h3 : env.mainPyExists = true) :
    ((runOps env [Op.start, Op.start] init0).1).spawnCount = 2 ∧
    1 ∉ ((runOps env [Op.start, Op.start] init0).1).live ∧
    ((runOps env [Op.start, Op.start] init0).1).live = [2] := by
  revert h1 h2 h3
  obtain ⟨c, k, p, m, w⟩ := env
  cases c <;> cases k <;> cases p <;> cases m <;> cases w <;> decide

/-- C5 witness: the amended statement at the healthy environment. -/
theorem startBackend_not_idempotent_witness :
    ((runOps envGood [Op.start, Op.start] init0).1).spawnCount = 2 ∧
    1 ∉ ((runOps envGood [Op.start, Op.start] init0).1).live ∧
    ((runOps envGood [Op.start, Op.start] init0).1).live = [2] :=
  startBackend_not_idempotent envGood rfl rfl rfl

/-- C7: when the resolved python executable or the backend entry script
is absent (and the main window exists to receive the dialog), a
`startBackend` call from the Stopped state (no handle, no live worker)
shows the startup error, spawns nothing, leaves the spawn counter
untouched and the state Stopped, and emits no retry — the call simply
returns. -/
theorem startBackend_missing_paths (env : Env) (s : SupState)
    (hw : env.windowPresent = true)
    (hp : env.pythonExists = false ∨ env.mainPyExists = false)
    (h1 : s.handle = none) (h2 : s.live = []) (h3 : s.ready = []) :
    ((startBackend env s).1).spawnCount = s.spawnCount ∧
    ((startBackend env s).1).handle = none ∧
    ((startBackend env s).1).live = [] ∧
    Ev.startupErrorShown ∈ (startBackend env s).2 ∧
    (∀ p, Ev.spawned p ∉ (startBackend env s).2) := by
  have hpm : (env.pythonExists && env.mainPyExists) = false := by
    rcases hp with hp | hp <;> simp [hp]
  simp only [startBackend, killExistingBackends_fst_stopped env s h1 h2 h3,
    killExistingBackends_snd_stopped env s h1]
  simp [checkBackendStatusSup_of_ready_nil, hpm, hw, h1, h2, h3]

/-- C7 witness: the missing-python environment at boot state. -/
theorem startBackend_missing_paths_witness :
    ((startBackend envNoPy init0).1).spawnCount = 0 ∧
    Ev.startupErrorShown ∈ (startBackend envNoPy init0).2 :=
  ⟨(startBackend_missing_paths envNoPy init0 rfl (Or.inl rfl) rfl rfl rfl).1,
   (startBackend_missing_paths envNoPy init0 rfl (Or.inl rfl) rfl rfl rfl).2.2.2.1⟩

/-- C10: `stopBackend` nulls the shared `backendProcess` handle
synchronously before returning, without waiting for OS exit
confirmation; a subsequent `stopBackend` is therefore a no-op; and the
pending 10-second force-kill callback reads the handle at fire time, so
the SIGKILL it issues targets whichever process the handle then refers
to — concretely, stopping worker 1 and starting worker 2 within the
grace window makes the timer SIGKILL the freshly started worker 2, not
worker 1. -/
theorem stopBackend_handle_semantics :
    (∀ (env : Env) (s : SupState), ((stopBackend env s).1).handle = none) ∧
    (∀ (env : Env) (s : SupState), s.handle = none → stopBackend env s = (s, [])) ∧
    (Ev.sigkill 2 ∈ (runOps envGood [Op.stop, Op.start, Op.wait 10] initHung).2 ∧
     Ev.sigkill 1 ∉ (runOps envGood [Op.stop, Op.start, Op.wait 10] initHung).2 ∧
     ((runOps envGood [Op.stop, Op.start, Op.wait 10] initHung).1).live = []) := by
  refine ⟨?_, ?_, by decide⟩
  · intro env s
    cases h : s.handle <;> simp [stopBackend, h]
  · intro env s h
    simp [stopBackend, h]

/-- C10 witness: a second stop right after boot is a no-op. -/
theorem stopBackend_handle_semantics_witness :
    stopBackend envGood init0 = (init0, []) :=
  stopBackend_handle_semantics.2.1 envGood init0 rfl

/-! ## Claim theorems: status synchronizer and single-instance guard -/

/-- C8 counterexample: the periodic tick handler has no single-flight
guard — when the probe launched by tick 0 is still unresolved at the
moment tick 1 fires (a probe lasting 15 seconds against the 10-second
interval), tick 1 still launches its probe instead of being skipped,
and two status probes are in flight simultaneously at t = 22. -/
theorem statusTick_no_single_flight :
    probeBusy (fun _ => 15) 0 (tickStart 1) = true ∧
    tickLaunchesProbe 1 = true ∧
    probesInFlight (fun _ => 15) 2 22 = 2 := by
  decide

/-- C8 amended: the periodic status tick never skips — every tick
launches a probe regardless of outstanding ones; at most one periodic
probe is in flight at a time only under the timing assumption that every
probe resolves within its worst-case idle-timeout budget (two 3-second
attempts plus one 3-second fallback = 9 seconds, below the 10-second
interval), not because of any skip mechanism in the code. -/
theorem statusTick_bounded_overlap (dur : Nat → Nat) (ticks t : Nat)
    (h : ∀ n, dur n ≤ probeWorstCaseSeconds) :
    (∀ n, tickLaunchesProbe n = true) ∧ probesInFlight dur ticks t ≤ 1 := by
  refine ⟨fun n => rfl, ?_⟩
  apply Finset.card_le_one.mpr
  intro a ha b hb
  simp only [Finset.mem_filter, Finset.mem_range, probeBusy, tickStart,
    statusIntervalSeconds, Bool.and_eq_true, decide_eq_true_eq] at ha hb
  have hda := h a
  have hdb := h b
  simp only [probeWorstCaseSeconds, perAttemptTimeoutSeconds, hostnames,
    List.length_cons, List.length_nil] at hda hdb
  omega

/-- C8 witness: with every probe taking its worst-case 9 seconds, at
most one periodic probe is in flight at t = 17. -/
theorem statusTick_bounded_overlap_witness :
    probesInFlight (fun _ => 9) 5 17 ≤ 1 := by
  exact (statusTick_bounded_overlap (fun _ => 9) 5 17
    (by intro n; show 9 ≤ probeWorstCaseSeconds; decide)).2

/-- C9: when a second application instance launches while another
instance holds the single-instance lock, the second fails to acquire
the lock, calls `app.quit()` before the ready event (so no worker is
ever spawned by it), and the activation is delivered to the existing
instance's `second-instance` handler, which restores the window if it
was minimized, shows it, and focuses it. -/
theorem secondInstance_forwards_and_exits (w : WinState) (readySpawns : Nat) :
    (bootInstance true readySpawns).gotTheLock = false ∧
    (bootInstance true readySpawns).quitCalled = true ∧
    (bootInstance true readySpawns).workerSpawns = 0 ∧
    onSecondInstance (some w) = some (secondInstanceHandler w) ∧
    (secondInstanceHandler w).focused = true ∧
    (secondInstanceHandler w).visible = true ∧
    (w.minimized = true → (secondInstanceHandler w).restored = true) := by
  refine ⟨rfl, rfl, rfl, rfl, ?_, ?_, ?_⟩ <;>
    obtain ⟨m, v, f, r⟩ := w <;>
    cases m <;> cases v <;> simp [secondInstanceHandler]

/-- C9 witness: a minimized, hidden primary window is restored by the
forwarded activation. -/
theorem secondInstance_forwards_and_exits_witness :
    (secondInstanceHandler
      { minimized := true, visible := false, focused := false,
        restored := false }).restored = true :=
  (secondInstance_forwards_and_exits
    { minimized := true, visible := false, focused := false, restored := false }
    1).2.2.2.2.2.2 rfl
